import Mathlib

/-!
Verification of the GPIO helper of this repository
(source file boneio/helper/gpio.py).

The module is embedded shallowly: every external effect (spawning the
pin-mux configuration process, the Adafruit_BBIO driver calls, the
asyncio running-loop lookup) is resolved against an explicit `Driver`
oracle, and every function returns its Python result (an `Except` for
raisable code) paired with the ordered trace of external calls it made.
Python exceptions become constructors of `PyErr`; `GPIOInputException err`
from boneio.helper.exceptions becomes `PyErr.gpioInputException cause`.
-/

namespace BoneIO

/-- Raw GPIO pin levels (`Gpio_States`). Modelled from the spec: boneio.const
is not among the sources; the spec enumerates Active Level as HIGH and LOW
with default LOW. The Python source compares levels with `is`; on an
enumerated constant, identity coincides with equality. -/
inductive Level where
  | low
  | high
  deriving DecidableEq, Repr

/-- Modelled from the spec: the `LOW` constant of boneio.const, the default
active level. -/
def LOW : Level := Level.low

/-- Edge kinds (`Gpio_Edges`). Modelled from the spec: boneio.const is not
among the sources; the spec enumerates RISING, FALLING, BOTH with default
FALLING. -/
inductive Edge where
  | rising
  | falling
  | both
  deriving DecidableEq, Repr

/-- Modelled from the spec: the `FALLING` constant of boneio.const, the
default edge kind. -/
def FALLING : Edge := Edge.falling

/-- The driver pull enumeration: `GPIO.PUD_UP` and `GPIO.PUD_DOWN`. -/
inductive Pud where
  | up
  | down
  deriving DecidableEq, Repr

/-- The driver direction enumeration: `GPIO.IN` and `GPIO.OUT`. -/
inductive Dir where
  | dirIn
  | dirOut
  deriving DecidableEq, Repr

/-- The exception classes `GPIO.setup` can raise and that `setup_input`
catches: `(ValueError, SystemError)` in the source. -/
inductive SetupErr where
  | valueError
  | systemError
  deriving DecidableEq, Repr

/-- Python exceptions that appear in the module. `gpioInputException` is the
repository's typed `GPIOInputException`, wrapping the underlying cause the
way `raise GPIOInputException(err)` does. `timeoutExpired` is
`subprocess.TimeoutExpired`; `noRunningLoop` is the RuntimeError raised by
`asyncio.get_running_loop()` outside a running loop. -/
inductive PyErr where
  | timeoutExpired (seconds : Nat)
  | valueError
  | systemError
  | runtimeError
  | gpioInputException (cause : PyErr)
  | noRunningLoop
  deriving DecidableEq, Repr

/-- The raw Python exception corresponding to a driver setup failure. -/
def SetupErr.toPyErr : SetupErr → PyErr
  | SetupErr.valueError => PyErr.valueError
  | SetupErr.systemError => PyErr.systemError

/-- One external call, recorded in order in the trace component of every
embedded function. -/
inductive Call where
  | subprocessRun (argv : List String) (timeoutSec : Nat)
  | gpioSetup (pin : String) (dir : Dir) (pud : Pud)
  | gpioInput (pin : String)
  | gpioAddEventDetect (pin : String) (edge : Edge) (callbackId : Nat) (bouncetime : Int)
  | getRunningLoop
  deriving DecidableEq, Repr

/-- Does the call set up a pin as input or output at the driver level? -/
def Call.isGpioSetup : Call → Bool
  | Call.gpioSetup _ _ _ => true
  | _ => false

/-- Is the call a driver-level edge registration? -/
def Call.isAddEventDetect : Call → Bool
  | Call.gpioAddEventDetect _ _ _ _ => true
  | _ => false

/-- Oracle fixing the outcome of each external effect: the subprocess result
(`Except.error ()` meaning the 1-second timeout fired, `Except.ok rc` a
completed process with exit status `rc`), the `GPIO.setup` outcome, the raw
level `GPIO.input` reads, the `GPIO.add_event_detect` outcome (`some ()`
meaning the RuntimeError the driver raises on a failed registration), and
whether an asyncio event loop is running in the calling context. -/
structure Driver where
  runResult : Except Unit Int
  setupResult : Option SetupErr
  inputLevel : Level
  addEventResult : Option Unit
  hasRunningLoop : Bool

/-- Modelled from the spec: the `CONFIG_PIN` constant of boneio.const (not
among the sources), the name of the external OS-level pin-mux configuration
executable. -/
def CONFIG_PIN : String := "config-pin"

/-- Modelled from the spec: the `GPIO` string constant of boneio.const
(imported as `GPIO_STR` in the source), the default electrical mode, which
the spec gives as "GPIO". -/
def GPIO_STR : String := "GPIO"

/-- `subprocess.run(argv, stdout=DEVNULL, stderr=STDOUT, timeout=t)`:
without `check=True` a completed process returns normally whatever its exit
status; only exceeding the timeout raises, namely `TimeoutExpired`. -/
def subprocessRun (d : Driver) (argv : List String) (timeoutSec : Nat) :
    Except PyErr Int × List Call :=
  (match d.runResult with
    | Except.error _ => Except.error (PyErr.timeoutExpired timeoutSec)
    | Except.ok rc => Except.ok rc,
   [Call.subprocessRun argv timeoutSec])

/-- Python slice `pin[0:3]`. -/
def pySlice03 (s : String) : String := String.mk (s.data.take 3)

/-- Python index `pin[3]` as a one-character string; for the length-4
strings it is applied to, this is the last character. -/
def pyIndex3 (s : String) : String := String.mk ((s.data.drop 3).take 1)

/-- The pin rewrite performed by `configure_pin`:
`pin = f"..." if len(pin) == 4 else pin`, i.e. a length-4 identifier becomes
`pin[0:3] + "0" + pin[3]` and anything else passes through unchanged. -/
def normalize_pin (pin : String) : String :=
  if pin.length = 4 then pySlice03 pin ++ "0" ++ pyIndex3 pin else pin

/-- `configure_pin(pin, mode=GPIO_STR)`: normalizes the pin, then runs
`[CONFIG_PIN, pin, mode]` with `timeout=1`. The `CompletedProcess` return
value is discarded; its exit status is never checked. -/
def configure_pin (d : Driver) (pin : String) (mode : String) :
    Except PyErr Unit × List Call :=
  let pin2 := normalize_pin pin
  let r := subprocessRun d [CONFIG_PIN, pin2, mode] 1
  (Except.map (fun _ => ()) r.1, r.2)

/-- `GPIO.setup(pin, direction, pull)`: the Adafruit_BBIO driver primitive;
it fails with ValueError or SystemError exactly when the oracle says so. -/
def GPIO_setup (d : Driver) (pin : String) (dir : Dir) (pud : Pud) :
    Except PyErr Unit × List Call :=
  (match d.setupResult with
    | none => Except.ok ()
    | some e => Except.error e.toPyErr,
   [Call.gpioSetup pin dir pud])

/-- `setup_input(pin, pull_mode="UP")`: configures the pin as input with
`GPIO.PUD_DOWN if pull_mode == "DOWN" else GPIO.PUD_UP`, and rewraps a
caught `(ValueError, SystemError)` as `GPIOInputException(err)`. -/
def setup_input (d : Driver) (pin : String) (pull_mode : String) :
    Except PyErr Unit × List Call :=
  let r := GPIO_setup d pin Dir.dirIn (if pull_mode = "DOWN" then Pud.down else Pud.up)
  (match r.1 with
    | Except.ok _ => Except.ok ()
    | Except.error PyErr.valueError =>
        Except.error (PyErr.gpioInputException PyErr.valueError)
    | Except.error PyErr.systemError =>
        Except.error (PyErr.gpioInputException PyErr.systemError)
    | Except.error e => Except.error e,
   r.2)

/-- `GPIO.input(pin)`: reads the instantaneous raw level from the driver. -/
def GPIO_input (d : Driver) (pin : String) : Level × List Call :=
  (d.inputLevel, [Call.gpioInput pin])

/-- `read_input(pin, on_state=LOW)`: `return GPIO.input(pin) is on_state`. -/
def read_input (d : Driver) (pin : String) (on_state : Level) : Bool × List Call :=
  let r := GPIO_input d pin
  (decide (r.1 = on_state), r.2)

/-- `GPIO.add_event_detect(gpio=pin, edge=edge, callback=callback,
bouncetime=bounce)`: the driver interrupt registration; it raises
RuntimeError exactly when the oracle says registration fails. Callbacks are
identified by a numeric id, enough to state pass-through. -/
def GPIO_add_event_detect (d : Driver) (pin : String) (edge : Edge)
    (callbackId : Nat) (bouncetime : Int) : Except PyErr Unit × List Call :=
  (match d.addEventResult with
    | none => Except.ok ()
    | some _ => Except.error PyErr.runtimeError,
   [Call.gpioAddEventDetect pin edge callbackId bouncetime])

/-- `edge_detect(pin, callback, bounce=0, edge=FALLING)`: registers edge
detection and rewraps a caught RuntimeError as `GPIOInputException(err)`. -/
def edge_detect (d : Driver) (pin : String) (callbackId : Nat) (bounce : Int)
    (edge : Edge) : Except PyErr Unit × List Call :=
  let r := GPIO_add_event_detect d pin edge callbackId bounce
  (match r.1 with
    | Except.ok _ => Except.ok ()
    | Except.error PyErr.runtimeError =>
        Except.error (PyErr.gpioInputException PyErr.runtimeError)
    | Except.error e => Except.error e,
   r.2)

/-- `edge_detect(pin, callback)` with its Python defaults filled in:
`bounce=0` and `edge=FALLING` as declared in the source. -/
def edge_detect_default (d : Driver) (pin : String) (callbackId : Nat) :
    Except PyErr Unit × List Call :=
  edge_detect d pin callbackId 0 FALLING

/-- The `rest_pin` configuration record: a mapping with the optional keys
`GPIO_MODE` (the mode) and `"bounce_time"`. -/
structure RestPin where
  mode : Option String
  bounce_time : Option Int
  deriving DecidableEq, Repr

/-- The default record the source substitutes for an absent `rest_pin`
keyword argument: the literal JSON-style mapping with the mode key set to
`GPIO_STR` and nothing else. -/
def defaultRestPin : RestPin := RestPin.mk (some GPIO_STR) none

/-- `kwargs.get("rest_pin", default_mapping)`. -/
def resolveRestPin (rest_pin : Option RestPin) : RestPin :=
  rest_pin.getD defaultRestPin

/-- `gpio.get("bounce_time", 25)`. -/
def resolveBounce (rest_pin : Option RestPin) : Int :=
  (resolveRestPin rest_pin).bounce_time.getD 25

/-- `gpio.get(GPIO_MODE, GPIO_STR)`. -/
def resolveMode (rest_pin : Option RestPin) : String :=
  (resolveRestPin rest_pin).mode.getD GPIO_STR

/-- The state a fully constructed `GpioBaseClass` instance holds (the
`_loop` field is the running event loop, represented only by the fact that
construction acquired it). -/
structure GpioBaseClass where
  _pin : String
  _bounce_time : Int
  _press_callback : Nat
  deriving DecidableEq, Repr

/-- `GpioBaseClass.__init__(self, pin, press_callback, **kwargs)`, step by
step: store the pin, resolve the `rest_pin` record, resolve the bounce
time, call `configure_pin` with the resolved mode, acquire the running
asyncio loop, store the callback, call `setup_input` with the default pull
mode. Any exception aborts construction there and propagates. -/
def GpioBaseClass.init (d : Driver) (pin : String) (press_callback : Nat)
    (rest_pin : Option RestPin) : Except PyErr GpioBaseClass × List Call :=
  let bounce := resolveBounce rest_pin
  let mode := resolveMode rest_pin
  let r1 := configure_pin d pin mode
  match r1.1 with
  | Except.error e => (Except.error e, r1.2)
  | Except.ok _ =>
    if d.hasRunningLoop then
      let r2 := setup_input d pin "UP"
      (match r2.1 with
        | Except.error e => Except.error e
        | Except.ok _ => Except.ok (GpioBaseClass.mk pin bounce press_callback),
       r1.2 ++ [Call.getRunningLoop] ++ r2.2)
    else
      (Except.error PyErr.noRunningLoop, r1.2 ++ [Call.getRunningLoop])

/-- The `is_pressed` property: `return read_input(self._pin)`, with
`read_input` receiving its default `on_state=LOW`. -/
def GpioBaseClass.is_pressed (d : Driver) (self : GpioBaseClass) :
    Bool × List Call :=
  read_input d self._pin LOW

/-- A driver on which every external operation succeeds (exit status 0, raw
level low, loop running). -/
def okDriver : Driver := Driver.mk (Except.ok 0) none Level.low none true

/-- A driver whose external configuration process exits with status 1. -/
def exitFailDriver : Driver := Driver.mk (Except.ok 1) none Level.high none true

/-- A driver whose external configuration process exceeds its timeout. -/
def timeoutDriver : Driver := Driver.mk (Except.error ()) none Level.high none true

/-- A driver on which `GPIO.setup` raises ValueError. -/
def setupFailDriver : Driver :=
  Driver.mk (Except.ok 0) (some SetupErr.valueError) Level.high none true

/-- A driver on which `GPIO.add_event_detect` raises RuntimeError. -/
def armFailDriver : Driver :=
  Driver.mk (Except.ok 0) none Level.high (some ()) true

/-- A driver with no running asyncio event loop, everything else fine. -/
def noLoopDriver : Driver := Driver.mk (Except.ok 0) none Level.low none false

/-- A driver whose raw input level reads high. -/
def highDriver : Driver := Driver.mk (Except.ok 0) none Level.high none true

theorem list_len4 {α : Type} (l : List α) (h : l.length = 4) :
    ∃ a b c d, l = [a, b, c, d] := by
  match l, h with
  | [a, b, c, d], _ => exact ⟨a, b, c, d, rfl⟩

theorem init_spec_error (d : Driver) (pin : String) (cb : Nat)
    (rp : Option RestPin) (h : d.runResult = Except.error ()) :
    GpioBaseClass.init d pin cb rp
      = (Except.error (PyErr.timeoutExpired 1),
         [Call.subprocessRun [CONFIG_PIN, normalize_pin pin, resolveMode rp] 1]) := by
  simp [GpioBaseClass.init, configure_pin, subprocessRun, Except.map, h]

theorem init_spec_noLoop (d : Driver) (pin : String) (cb : Nat)
    (rp : Option RestPin) (rc : Int) (h : d.runResult = Except.ok rc)
    (hl : d.hasRunningLoop = false) :
    GpioBaseClass.init d pin cb rp
      = (Except.error PyErr.noRunningLoop,
         [Call.subprocessRun [CONFIG_PIN, normalize_pin pin, resolveMode rp] 1,
          Call.getRunningLoop]) := by
  simp [GpioBaseClass.init, configure_pin, subprocessRun, Except.map, h, hl]

theorem init_spec_ok (d : Driver) (pin : String) (cb : Nat)
    (rp : Option RestPin) (rc : Int) (h : d.runResult = Except.ok rc)
    (hl : d.hasRunningLoop = true) :
    GpioBaseClass.init d pin cb rp
      = ((match d.setupResult with
           | none => Except.ok (GpioBaseClass.mk pin (resolveBounce rp) cb)
           | some e => Except.error (PyErr.gpioInputException e.toPyErr)),
         [Call.subprocessRun [CONFIG_PIN, normalize_pin pin, resolveMode rp] 1,
          Call.getRunningLoop,
          Call.gpioSetup pin Dir.dirIn Pud.up]) := by
  cases hs : d.setupResult with
  | none => simp [GpioBaseClass.init, configure_pin, subprocessRun, setup_input,
      GPIO_setup, Except.map, SetupErr.toPyErr, h, hl, hs]
  | some e =>
    cases e <;> simp [GpioBaseClass.init, configure_pin, subprocessRun, setup_input,
      GPIO_setup, Except.map, SetupErr.toPyErr, h, hl, hs]

/-- C1: configure_pin always invokes the external configuration call on the
normalized pin identifier; a length-4 identifier has the fixed token
inserted at offset 3, immediately before the last character, leaving the
first three characters and the last character unchanged, and an identifier
of any other length is passed through unmodified. -/
theorem configure_pin_normalizes_c1 (pin : String) :
    (∀ d mode, (configure_pin d pin mode).2
        = [Call.subprocessRun [CONFIG_PIN, normalize_pin pin, mode] 1]) ∧
    (pin.length = 4 →
      (normalize_pin pin).data = pin.data.take 3 ++ '0' :: pin.data.drop 3) ∧
    (pin.length ≠ 4 → normalize_pin pin = pin) := by
  refine ⟨fun d mode => rfl, fun h => ?_, fun h => by simp [normalize_pin, h]⟩
  obtain ⟨a, b, c, e, hl⟩ := list_len4 pin.data h
  cases pin with
  | mk l =>
    simp only at hl
    subst hl
    rfl

/-- Witness for C1 at the concrete pins "P9_1" (length 4, expands to
"P9_01") and "P9_12" (length 5, unchanged). -/
theorem configure_pin_normalizes_c1_witness :
    (normalize_pin "P9_1").data = "P9_1".data.take 3 ++ '0' :: "P9_1".data.drop 3 ∧
    normalize_pin "P9_12" = "P9_12" :=
  ⟨(configure_pin_normalizes_c1 "P9_1").2.1 (by decide),
   (configure_pin_normalizes_c1 "P9_12").2.2 (by decide)⟩

/-- C2 fails as stated: when the external configuration process completes
with the non-zero exit status 1 — a failure of the external operation —
configure_pin returns normally, surfacing no error of any kind to the
caller, because the source never checks the exit status of the completed
process. -/
theorem configure_pin_c2_counterexample :
    exitFailDriver.runResult = Except.ok 1 ∧ (1 : Int) ≠ 0 ∧
    (configure_pin exitFailDriver "P9_12" GPIO_STR).1 = Except.ok () :=
  ⟨rfl, by decide, rfl⟩

/-- C2 amended: configure_pin invokes the external configuration operation
with a hard 1-second timeout; exceeding the timeout raises
subprocess.TimeoutExpired, and during construction of a GPIO Input Unit
that exception aborts construction with no input or output setup attempted
afterward; a process that completes is accepted regardless of its exit
status, so a non-zero exit is not surfaced at all, and no ConfigError
exception type takes part. -/
theorem configure_pin_timeout_c2 (d : Driver) (pin mode : String) (cb : Nat)
    (rp : Option RestPin) :
    ((configure_pin d pin mode).2
        = [Call.subprocessRun [CONFIG_PIN, normalize_pin pin, mode] 1]) ∧
    (d.runResult = Except.error () →
      (configure_pin d pin mode).1 = Except.error (PyErr.timeoutExpired 1) ∧
      (GpioBaseClass.init d pin cb rp).1 = Except.error (PyErr.timeoutExpired 1) ∧
      ∀ c ∈ (GpioBaseClass.init d pin cb rp).2,
        c.isGpioSetup = false ∧ c.isAddEventDetect = false) ∧
    (∀ rc : Int, d.runResult = Except.ok rc →
      (configure_pin d pin mode).1 = Except.ok ()) := by
  refine ⟨rfl, fun h => ⟨?_, ?_, ?_⟩, fun rc h => ?_⟩
  · simp [configure_pin, subprocessRun, Except.map, h]
  · rw [init_spec_error d pin cb rp h]
  · intro c hc
    rw [init_spec_error d pin cb rp h] at hc
    simp at hc
    subst hc
    exact ⟨rfl, rfl⟩
  · simp [configure_pin, subprocessRun, Except.map, h]

/-- Witness for C2 amended: on a driver whose configuration process times
out, configure_pin raises TimeoutExpired and construction fails with it;
on a driver whose process exits with status 1, configure_pin succeeds. -/
theorem configure_pin_timeout_c2_witness :
    (configure_pin timeoutDriver "P9_12" GPIO_STR).1
        = Except.error (PyErr.timeoutExpired 1) ∧
    (GpioBaseClass.init timeoutDriver "P9_12" 0 none).1
        = Except.error (PyErr.timeoutExpired 1) ∧
    (configure_pin exitFailDriver "P9_12" GPIO_STR).1 = Except.ok () :=
  ⟨((configure_pin_timeout_c2 timeoutDriver "P9_12" GPIO_STR 0 none).2.1 rfl).1,
   ((configure_pin_timeout_c2 timeoutDriver "P9_12" GPIO_STR 0 none).2.1 rfl).2.1,
   (configure_pin_timeout_c2 exitFailDriver "P9_12" GPIO_STR 0 none).2.2 1 rfl⟩

/-- C3: read_input returns true exactly when the instantaneous raw driver
level equals the given active level; with active level LOW a raw HIGH
reading returns false and a raw LOW reading returns true, and symmetrically
for active level HIGH. -/
theorem read_input_active_level_c3 (d : Driver) (pin : String) (lvl : Level) :
    ((read_input d pin lvl).1 = true ↔ d.inputLevel = lvl) ∧
    (d.inputLevel = Level.high → (read_input d pin LOW).1 = false) ∧
    (d.inputLevel = Level.low → (read_input d pin LOW).1 = true) ∧
    (d.inputLevel = Level.low → (read_input d pin Level.high).1 = false) ∧
    (d.inputLevel = Level.high → (read_input d pin Level.high).1 = true) := by
  unfold read_input GPIO_input LOW
  refine ⟨by simp, fun h => by simp [h], fun h => by simp [h],
    fun h => by simp [h], fun h => by simp [h]⟩

/-- Witness for C3 on concrete drivers reading raw high and raw low. -/
theorem read_input_active_level_c3_witness :
    (read_input highDriver "P9_12" LOW).1 = false ∧
    (read_input okDriver "P9_12" LOW).1 = true ∧
    (read_input okDriver "P9_12" Level.high).1 = false ∧
    (read_input highDriver "P9_12" Level.high).1 = true :=
  ⟨(read_input_active_level_c3 highDriver "P9_12" LOW).2.1 rfl,
   (read_input_active_level_c3 okDriver "P9_12" LOW).2.2.1 rfl,
   (read_input_active_level_c3 okDriver "P9_12" Level.high).2.2.2.1 rfl,
   (read_input_active_level_c3 highDriver "P9_12" Level.high).2.2.2.2 rfl⟩

/-- C4: construction of a GPIO Input Unit resolves the configuration, then
calls configure_pin, then setup_input, in that order, and never arms edge
detection; a failure of configure_pin aborts construction before any input
setup, a failure of setup_input aborts construction, and in both cases the
raised error propagates unchanged, so construction either fully succeeds or
fails atomically. -/
theorem gpio_init_ordered_c4 (d : Driver) (pin : String) (cb : Nat)
    (rp : Option RestPin) :
    (∀ c ∈ (GpioBaseClass.init d pin cb rp).2, c.isAddEventDetect = false) ∧
    (d.runResult = Except.error () →
      GpioBaseClass.init d pin cb rp
        = (Except.error (PyErr.timeoutExpired 1),
           [Call.subprocessRun [CONFIG_PIN, normalize_pin pin, resolveMode rp] 1])) ∧
    (∀ rc : Int, d.runResult = Except.ok rc → d.hasRunningLoop = true →
      ((GpioBaseClass.init d pin cb rp).2
          = [Call.subprocessRun [CONFIG_PIN, normalize_pin pin, resolveMode rp] 1,
             Call.getRunningLoop,
             Call.gpioSetup pin Dir.dirIn Pud.up] ∧
       (d.setupResult = none →
         (GpioBaseClass.init d pin cb rp).1
           = Except.ok (GpioBaseClass.mk pin (resolveBounce rp) cb)) ∧
       (∀ e, d.setupResult = some e →
         (GpioBaseClass.init d pin cb rp).1
           = Except.error (PyErr.gpioInputException e.toPyErr)))) := by
  refine ⟨?_, fun h => init_spec_error d pin cb rp h, fun rc h hl => ?_⟩
  · intro c hc
    rcases hr : d.runResult with u | rc
    · rw [init_spec_error d pin cb rp hr] at hc
      simp at hc
      subst hc
      rfl
    · rcases hl : d.hasRunningLoop with _ | _
      · rw [init_spec_noLoop d pin cb rp rc hr hl] at hc
        simp at hc
        rcases hc with hc | hc <;> (subst hc; rfl)
      · rw [init_spec_ok d pin cb rp rc hr hl] at hc
        simp at hc
        rcases hc with hc | hc | hc <;> (subst hc; rfl)
  · rw [init_spec_ok d pin cb rp rc h hl]
    refine ⟨rfl, fun hs => by simp [hs], fun e hs => by simp [hs]⟩

/-- Witness for C4: on a fully healthy driver construction succeeds with
the expected call order; on a driver whose input setup raises ValueError
construction fails with the wrapped typed error. -/
theorem gpio_init_ordered_c4_witness :
    (GpioBaseClass.init okDriver "P9_12" 3 none).2
        = [Call.subprocessRun [CONFIG_PIN, normalize_pin "P9_12", resolveMode none] 1,
           Call.getRunningLoop,
           Call.gpioSetup "P9_12" Dir.dirIn Pud.up] ∧
    (GpioBaseClass.init okDriver "P9_12" 3 none).1
        = Except.ok (GpioBaseClass.mk "P9_12" (resolveBounce none) 3) ∧
    (GpioBaseClass.init setupFailDriver "P9_12" 3 none).1
        = Except.error (PyErr.gpioInputException SetupErr.valueError.toPyErr) :=
  ⟨((gpio_init_ordered_c4 okDriver "P9_12" 3 none).2.2 0 rfl rfl).1,
   ((gpio_init_ordered_c4 okDriver "P9_12" 3 none).2.2 0 rfl rfl).2.1 rfl,
   ((gpio_init_ordered_c4 setupFailDriver "P9_12" 3 none).2.2 0 rfl rfl).2.2
     SetupErr.valueError rfl⟩

/-- C5: setup_input configures the pin as input with the requested pull
bias translated to the driver enumeration, succeeds exactly when the
driver-level setup succeeds, and wraps a driver failure in the typed
GPIOInputException, never ignoring it. -/
theorem setup_input_wraps_c5 (d : Driver) (pin pull_mode : String) :
    ((setup_input d pin pull_mode).2
        = [Call.gpioSetup pin Dir.dirIn
             (if pull_mode = "DOWN" then Pud.down else Pud.up)]) ∧
    (d.setupResult = none → (setup_input d pin pull_mode).1 = Except.ok ()) ∧
    (∀ e, d.setupResult = some e →
      (setup_input d pin pull_mode).1
        = Except.error (PyErr.gpioInputException e.toPyErr)) := by
  refine ⟨rfl, fun h => ?_, fun e h => ?_⟩
  · simp [setup_input, GPIO_setup, h]
  · cases e <;> simp [setup_input, GPIO_setup, SetupErr.toPyErr, h]

/-- Witness for C5: healthy driver setup succeeds; a ValueError from the
driver is wrapped in the typed error. -/
theorem setup_input_wraps_c5_witness :
    (setup_input okDriver "P9_12" "UP").1 = Except.ok () ∧
    (setup_input setupFailDriver "P9_12" "UP").1
      = Except.error (PyErr.gpioInputException PyErr.valueError) :=
  ⟨(setup_input_wraps_c5 okDriver "P9_12" "UP").2.1 rfl,
   (setup_input_wraps_c5 setupFailDriver "P9_12" "UP").2.2 SetupErr.valueError rfl⟩

/-- C6: edge arming passes the requested pin, edge kind, bounce window and
callback through to the driver registration call, succeeds exactly when the
driver accepts the registration, and rewraps the driver RuntimeError of a
failed registration in the typed GPIOInputException rather than swallowing
it. -/
theorem edge_detect_passthrough_c6 (d : Driver) (pin : String) (cb : Nat)
    (bounce : Int) (edge : Edge) :
    ((edge_detect d pin cb bounce edge).2
        = [Call.gpioAddEventDetect pin edge cb bounce]) ∧
    (d.addEventResult = none →
      (edge_detect d pin cb bounce edge).1 = Except.ok ()) ∧
    (d.addEventResult = some () →
      (edge_detect d pin cb bounce edge).1
        = Except.error (PyErr.gpioInputException PyErr.runtimeError)) := by
  refine ⟨rfl, fun h => ?_, fun h => ?_⟩ <;>
    simp [edge_detect, GPIO_add_event_detect, h]

/-- Witness for C6: registration succeeds on a healthy driver and fails
with the wrapped RuntimeError on a driver that rejects it. -/
theorem edge_detect_passthrough_c6_witness :
    (edge_detect okDriver "P9_12" 5 25 FALLING).1 = Except.ok () ∧
    (edge_detect armFailDriver "P9_12" 5 25 FALLING).1
      = Except.error (PyErr.gpioInputException PyErr.runtimeError) :=
  ⟨(edge_detect_passthrough_c6 okDriver "P9_12" 5 25 FALLING).2.1 rfl,
   (edge_detect_passthrough_c6 armFailDriver "P9_12" 5 25 FALLING).2.2 rfl⟩

/-- C7: is_pressed delegates to read_input on the stored pin with the
unit's active level — always the default LOW, the only active level a unit
can hold — and is a pure query: it is defined on every constructed unit and
its result depends only on the raw level the driver reads, not on whether
edge detection was ever armed or on any other oracle state. -/
theorem is_pressed_delegates_c7 (d d2 : Driver) (u : GpioBaseClass) :
    GpioBaseClass.is_pressed d u = read_input d u._pin LOW ∧
    ((GpioBaseClass.is_pressed d u).1 = true ↔ d.inputLevel = LOW) ∧
    (d.inputLevel = d2.inputLevel →
      (GpioBaseClass.is_pressed d u).1 = (GpioBaseClass.is_pressed d2 u).1) := by
  refine ⟨rfl, by simp [GpioBaseClass.is_pressed, read_input, GPIO_input],
    fun h => by simp [GpioBaseClass.is_pressed, read_input, GPIO_input, h]⟩

/-- Witness for C7 on a constructed unit: pressed on a raw-low driver, not
pressed on a raw-high driver with an armed-state difference. -/
theorem is_pressed_delegates_c7_witness :
    (GpioBaseClass.is_pressed okDriver (GpioBaseClass.mk "P9_12" 25 3)).1 = true ∧
    (GpioBaseClass.is_pressed highDriver (GpioBaseClass.mk "P9_12" 25 3)).1
      = (GpioBaseClass.is_pressed armFailDriver (GpioBaseClass.mk "P9_12" 25 3)).1 :=
  ⟨(is_pressed_delegates_c7 okDriver okDriver (GpioBaseClass.mk "P9_12" 25 3)).2.1.mpr rfl,
   (is_pressed_delegates_c7 highDriver armFailDriver
      (GpioBaseClass.mk "P9_12" 25 3)).2.2 rfl⟩

/-- C8 fails as stated: edge arming with no bounce window supplied uses the
declared default `bounce=0` of edge_detect and registers bouncetime 0 with
the driver, not 25 milliseconds. -/
theorem bounce_default_c8_counterexample :
    (edge_detect_default okDriver "P9_12" 7).2
        = [Call.gpioAddEventDetect "P9_12" FALLING 7 0] ∧
    (0 : Int) ≠ 25 :=
  ⟨rfl, by decide⟩

/-- C8 amended: when the per-unit configuration record is absent, or
present with the mode or bounce_time key missing, the GPIO Input Unit
resolves electrical mode "GPIO" and a bounce window of 25 milliseconds;
edge_detect itself, however, defaults its bounce window to 0 when none is
supplied, so 25 ms is only the construction-time default, not the default
of edge arming. -/
theorem bounce_defaults_c8 (d : Driver) (pin : String) (cb : Nat) :
    resolveBounce none = 25 ∧
    resolveMode none = "GPIO" ∧
    resolveBounce (some (RestPin.mk none none)) = 25 ∧
    resolveMode (some (RestPin.mk none none)) = "GPIO" ∧
    resolveMode (some (RestPin.mk none (some 40))) = "GPIO" ∧
    resolveBounce (some (RestPin.mk (some "GPIO_PU") none)) = 25 ∧
    (edge_detect_default d pin cb).2
        = [Call.gpioAddEventDetect pin FALLING cb 0] :=
  ⟨rfl, rfl, rfl, rfl, rfl, rfl, rfl⟩

/-- C9: every pull_mode string other than the exact string "DOWN" —
lowercase spellings and arbitrary strings included — selects the pull-up
bias, only the exact string "DOWN" selects pull-down, and the outcome of
setup_input never depends on the pull-mode string, so an unrecognized value
is never rejected with an error. -/
theorem setup_input_pull_default_c9 (d : Driver) (pin pm pm2 : String) :
    (pm ≠ "DOWN" →
      (setup_input d pin pm).2 = [Call.gpioSetup pin Dir.dirIn Pud.up]) ∧
    ((setup_input d pin "DOWN").2 = [Call.gpioSetup pin Dir.dirIn Pud.down]) ∧
    ((setup_input d pin pm).1 = (setup_input d pin pm2).1) := by
  refine ⟨fun h => ?_, by simp [setup_input, GPIO_setup], rfl⟩
  simp [setup_input, GPIO_setup, h]

/-- Witness for C9: the lowercase string "down" silently selects the
pull-up bias. -/
theorem setup_input_pull_default_c9_witness :
    (setup_input okDriver "P9_12" "down").2
      = [Call.gpioSetup "P9_12" Dir.dirIn Pud.up] :=
  (setup_input_pull_default_c9 okDriver "P9_12" "down" "UP").1 (by decide)

/-- C10: construction with no running asyncio event loop in the calling
context raises the loop error even when pin configuration and input setup
would themselves succeed, and it does so only after the external pin
configuration call has already been made; no input setup happens. -/
theorem init_requires_loop_c10 (d : Driver) (pin : String) (cb : Nat)
    (rp : Option RestPin) (rc : Int) :
    d.hasRunningLoop = false → d.runResult = Except.ok rc →
      (GpioBaseClass.init d pin cb rp).1 = Except.error PyErr.noRunningLoop ∧
      (GpioBaseClass.init d pin cb rp).2
        = [Call.subprocessRun [CONFIG_PIN, normalize_pin pin, resolveMode rp] 1,
           Call.getRunningLoop] := by
  intro hl h
  rw [init_spec_noLoop d pin cb rp rc h hl]
  exact ⟨rfl, rfl⟩

/-- Witness for C10 on a driver where every external operation would
succeed but no event loop is running. -/
theorem init_requires_loop_c10_witness :
    (GpioBaseClass.init noLoopDriver "P9_12" 3 none).1
        = Except.error PyErr.noRunningLoop ∧
    (GpioBaseClass.init noLoopDriver "P9_12" 3 none).2
        = [Call.subprocessRun [CONFIG_PIN, normalize_pin "P9_12", resolveMode none] 1,
           Call.getRunningLoop] :=
  init_requires_loop_c10 noLoopDriver "P9_12" 3 none 0 rfl rfl
